import Mathlib

/-!
Verification of the chat session controller in `static/js/chat.js`.

The development shallowly embeds the client-side state of the chat widget:
the transcript, the lesson sidebar, the control-enable flags, and the
session variables `currentLessonPlan`, `currentLessonIndex`,
`isFirstMessage`.  Network effects are modelled by passing the outcome of
the `fetch`/`json` pair (`FetchResult`) into the handler as data, and each
event handler becomes a pure state-transition function translated line by
line from the source.
-/

namespace Chat

/-! ### Text formatting helpers (`escapeHtml`, `formatMessage`) -/

/-- One character of `escapeHtml`: the browser serialises a text node,
escaping `&`, `<`, `>` and U+00A0; other characters pass through. -/
def escapeChar (c : Char) : String :=
  if c == '&' then "&amp;"
  else if c == '<' then "&lt;"
  else if c == '>' then "&gt;"
  else if c.toNat == 0xA0 then "&nbsp;"
  else String.singleton c

def escapeHtmlAux : List Char → List Char
  | [] => []
  | c :: cs => (escapeChar c).data ++ escapeHtmlAux cs

/-- `escapeHtml(text)`: assign to `textContent`, read back `innerHTML`. -/
def escapeHtml (s : String) : String := ⟨escapeHtmlAux s.data⟩

/-- JavaScript `.` (no `s` flag): any character except line terminators. -/
def jsDot (c : Char) : Bool :=
  !(c == '\n' || c == '\r' || c.toNat == 0x2028 || c.toNat == 0x2029)

/-- Lazy body search for `/\*\*(.+?)\*\*/`: starting right after an opening
`**`, consume at least one `.`-character, preferring the shortest body that
is followed by a closing `**`.  Returns the body and the text after the
closing delimiter. -/
def findBoldBody : List Char → Option (List Char × List Char)
  | [] => none
  | c :: rest =>
    if jsDot c then
      match rest with
      | '*' :: '*' :: rest2 => some ([c], rest2)
      | _ =>
        match findBoldBody rest with
        | some (body, rem) => some (c :: body, rem)
        | none => none
    else none

/-- Lazy body search for `/\*(.+?)\*/`, analogous to `findBoldBody`. -/
def findItalicBody : List Char → Option (List Char × List Char)
  | [] => none
  | c :: rest =>
    if jsDot c then
      match rest with
      | '*' :: rest2 => some ([c], rest2)
      | _ =>
        match findItalicBody rest with
        | some (body, rem) => some (c :: body, rem)
        | none => none
    else none

/-- Global scan of `text.replace(/\*\*(.+?)\*\*/g, '<strong>$1</strong>')`.
The fuel argument (instantiated with the input length) only justifies
termination: every recursive call consumes at least one input character. -/
def replaceBoldAux : Nat → List Char → List Char
  | 0, cs => cs
  | _ + 1, [] => []
  | fuel + 1, '*' :: '*' :: rest =>
    match findBoldBody rest with
    | some (body, rem) =>
        "<strong>".data ++ body ++ "</strong>".data ++ replaceBoldAux fuel rem
    | none => '*' :: replaceBoldAux fuel ('*' :: rest)
  | fuel + 1, c :: rest => c :: replaceBoldAux fuel rest

def replaceBold (s : String) : String := ⟨replaceBoldAux s.data.length s.data⟩

/-- Global scan of `text.replace(/\*(.+?)\*/g, '<em>$1</em>')`. -/
def replaceItalicAux : Nat → List Char → List Char
  | 0, cs => cs
  | _ + 1, [] => []
  | fuel + 1, '*' :: rest =>
    match findItalicBody rest with
    | some (body, rem) =>
        "<em>".data ++ body ++ "</em>".data ++ replaceItalicAux fuel rem
    | none => '*' :: replaceItalicAux fuel rest
  | fuel + 1, c :: rest => c :: replaceItalicAux fuel rest

def replaceItalic (s : String) : String := ⟨replaceItalicAux s.data.length s.data⟩

/-- `text.replace(/\n/g, '<br>')` on one character. -/
def brChar (c : Char) : String := if c == '\n' then "<br>" else String.singleton c

def replaceNewlinesAux : List Char → List Char
  | [] => []
  | c :: cs => (brChar c).data ++ replaceNewlinesAux cs

def replaceNewlines (s : String) : String := ⟨replaceNewlinesAux s.data⟩

/-- `formatMessage(text)`: escape, then bold, then italic, then newlines. -/
def formatMessage (text : String) : String :=
  replaceNewlines (replaceItalic (replaceBold (escapeHtml text)))


/-- JavaScript `String.prototype.trim` strips WhiteSpace and LineTerminator
code points from both ends. -/
def jsWhitespace (c : Char) : Bool :=
  c == ' ' || c == '\t' || c == '\n' || c == '\r' ||
    c.toNat == 0x0B || c.toNat == 0x0C || c.toNat == 0xA0 ||
    c.toNat == 0xFEFF || c.toNat == 0x2028 || c.toNat == 0x2029

def dropWs : List Char → List Char
  | [] => []
  | c :: cs => if jsWhitespace c then dropWs cs else c :: cs

/-- `s.trim()` as JavaScript evaluates it. -/
def jsTrim (s : String) : String := ⟨(dropWs (dropWs s.data).reverse).reverse⟩


/-! ### Data model -/

/-- One rendered transcript entry.  The constructor records which helper
produced the entry (`addUserMessage`, `addAIMessage`, `addSystemMessage`,
respectively the history replay in `loadSession`) and carries the raw text;
the bubble HTML is recovered by `Entry.bubbleHtml`. -/
inductive Entry where
  | userMsg (text : String)
  | aiMsg (text : String)
  | sysMsg (text : String)
deriving DecidableEq

/-- The HTML placed in the message bubble for each kind of entry: user and
system text goes through `escapeHtml`, AI text through `formatMessage`. -/
def Entry.bubbleHtml : Entry → String
  | .userMsg t => escapeHtml t
  | .aiMsg t => formatMessage t
  | .sysMsg t => escapeHtml t

/-- One rendered sidebar item: the escaped lesson title, the text of the
lesson-number span, and the `active` / `completed` class marks. -/
structure LessonItem where
  title : String
  number : String
  active : Bool
  completed : Bool
deriving DecidableEq

/-- Body of `POST /api/chat` responses:
`{ message, lesson_plan?, is_finished?, error? }`. -/
structure ChatResponse where
  message : String
  lesson_plan : Option (List String)
  is_finished : Option Bool
  error : Option String
deriving DecidableEq

/-- One entry of the history returned by `GET /api/session`. -/
structure HistoryMsg where
  sender : String
  message : String
deriving DecidableEq

/-- Outcome of the `fetch` / `response.json()` pair: either a parsed body,
or a rejection (network error or non-JSON body) caught by the handler. -/
inductive FetchResult where
  | ok (data : ChatResponse)
  | failure
deriving DecidableEq

/-- Outcome of the `GET /api/session` fetch in `loadSession`: a parsed body
whose `history` field may be absent, or a rejection. -/
inductive SessionResult where
  | ok (history : Option (List HistoryMsg))
  | failure
deriving DecidableEq

/-- JavaScript truthiness of `data.error` (a possibly absent string):
truthy iff present and non-empty. -/
def strTruthy : Option String → Bool
  | some s => s != ""
  | none => false

/-- JavaScript truthiness of `data.is_finished` (a possibly absent
boolean). -/
def boolTruthy : Option Bool → Bool
  | some b => b
  | none => false

/-- The client-side state manipulated by the handlers in `chat.js`:
the DOM pieces the claims are about (transcript, welcome placeholder,
sidebar, control visibility and enablement, typing indicator, toasts)
together with the session variables, plus a log of issued `POST /api/chat`
request payloads. -/
structure UIState where
  welcome : Bool
  transcript : List Entry
  sidebar : List LessonItem
  inputDisabled : Bool
  sendDisabled : Bool
  nextDisabled : Bool
  replayDisabled : Bool
  typingVisible : Bool
  controlsVisible : Bool
  currentLessonPlan : List String
  currentLessonIndex : Nat
  isFirstMessage : Bool
  toasts : List String
  requests : List String
deriving DecidableEq

/-- State at `DOMContentLoaded`: empty transcript behind the welcome
placeholder, no plan, index 0, first-message flag set, everything enabled,
lesson controls hidden. -/
def initState : UIState :=
  { welcome := true
  , transcript := []
  , sidebar := []
  , inputDisabled := false
  , sendDisabled := false
  , nextDisabled := false
  , replayDisabled := false
  , typingVisible := false
  , controlsVisible := false
  , currentLessonPlan := []
  , currentLessonIndex := 0
  , isFirstMessage := true
  , toasts := []
  , requests := [] }

/-! ### Rendering helpers -/

def showTypingIndicator (st : UIState) : UIState := { st with typingVisible := true }

def hideTypingIndicator (st : UIState) : UIState := { st with typingVisible := false }

def showToast (st : UIState) (m : String) : UIState := { st with toasts := st.toasts ++ [m] }

/-- `addUserMessage(text)`: removes the welcome placeholder when present and
appends the user bubble. -/
def addUserMessage (st : UIState) (text : String) : UIState :=
  { st with welcome := false, transcript := st.transcript ++ [Entry.userMsg text] }

/-- `addAIMessage(text)`: appends the AI bubble; the placeholder is left
alone. -/
def addAIMessage (st : UIState) (text : String) : UIState :=
  { st with transcript := st.transcript ++ [Entry.aiMsg text] }

/-- `addSystemMessage(text)`: appends the warning bubble; the placeholder is
left alone. -/
def addSystemMessage (st : UIState) (text : String) : UIState :=
  { st with transcript := st.transcript ++ [Entry.sysMsg text] }

/-- One item built by `updateLessonPlan` for lesson `i` of the plan when the
current index is `idx`. -/
def renderLessonItem (idx i : Nat) (lesson : String) : LessonItem :=
  { title := escapeHtml lesson
  , number := if i < idx then "" else toString (i + 1)
  , active := i == idx
  , completed := decide (i < idx) }

def renderItems (idx : Nat) : Nat → List String → List LessonItem
  | _, [] => []
  | i, l :: ls => renderLessonItem idx i l :: renderItems idx (i + 1) ls

/-- The class reset performed by `updateLessonProgress` on item `i`: the
title and number spans stay as rendered, only the marks change. -/
def remarkItem (idx i : Nat) (item : LessonItem) : LessonItem :=
  { item with active := i == idx, completed := decide (i < idx) }

def remarkItems (idx : Nat) : Nat → List LessonItem → List LessonItem
  | _, [] => []
  | i, item :: rest => remarkItem idx i item :: remarkItems idx (i + 1) rest

/-- `updateLessonProgress()`: when a plan exists, re-mark every sidebar
item against `currentLessonIndex`; otherwise do nothing. -/
def updateLessonProgress (st : UIState) : UIState :=
  if st.currentLessonPlan.length > 0 then
    { st with sidebar := remarkItems st.currentLessonIndex 0 st.sidebar }
  else st

/-- `updateLessonPlan(lessons)`: rebuild the sidebar from the list, then run
`updateLessonProgress`. -/
def updateLessonPlan (st : UIState) (lessons : List String) : UIState :=
  updateLessonProgress { st with sidebar := renderItems st.currentLessonIndex 0 lessons }

/-! ### Event handlers -/

/-- The synchronous prefix of the submit handler once the trimmed message is
known non-empty: append the optimistic user bubble, disable input and send,
show the typing indicator, and issue the `POST /api/chat` request. -/
def submitBegin (st : UIState) (message : String) : UIState :=
  let st1 := addUserMessage st message
  let st2 := { st1 with inputDisabled := true, sendDisabled := true }
  let st3 := showTypingIndicator st2
  { st3 with requests := st3.requests ++ [message] }

/-- The continuation of the submit handler after the request settles,
including the `finally` re-enabling of input and send. -/
def submitResolve (st : UIState) (result : FetchResult) : UIState :=
  let stDone :=
    match result with
    | .ok data =>
      let st1 := hideTypingIndicator st
      if strTruthy data.error then
        addSystemMessage st1 ("Error: " ++ data.error.getD "")
      else
        let st2 :=
          match data.lesson_plan with
          | some lp =>
            if lp.length > 0 then
              updateLessonPlan { st1 with currentLessonPlan := lp } lp
            else st1
          | none => st1
        let st3 := addAIMessage st2 data.message
        if boolTruthy data.is_finished then
          showToast { st3 with controlsVisible := false } "Lesson plan completed! 🎉"
        else if st3.isFirstMessage then
          { st3 with controlsVisible := true, isFirstMessage := false }
        else st3
    | .failure =>
      addSystemMessage (hideTypingIndicator st) "Failed to send message. Please try again."
  { stDone with inputDisabled := false, sendDisabled := false }

/-- The `chatForm` submit handler: trim the input; an empty result is a
silent no-op, otherwise run the optimistic append, the request, and the
response handling. -/
def submitUserMessage (st : UIState) (inputValue : String) (result : FetchResult) : UIState :=
  let message := jsTrim inputValue
  if message = "" then st
  else submitResolve (submitBegin st message) result

/-- The synchronous prefix of `sendControlMessage(action)`: disable all four
controls, show the typing indicator, issue the request. -/
def controlBegin (st : UIState) (action : String) : UIState :=
  let st1 := { st with inputDisabled := true, sendDisabled := true
                     , nextDisabled := true, replayDisabled := true }
  let st2 := showTypingIndicator st1
  { st2 with requests := st2.requests ++ [action] }

/-- The continuation of `sendControlMessage` after the request settles,
including the `finally` re-enabling of all four controls. -/
def controlResolve (st : UIState) (action : String) (result : FetchResult) : UIState :=
  let stDone :=
    match result with
    | .ok data =>
      let st1 := hideTypingIndicator st
      if strTruthy data.error then
        addSystemMessage st1 ("Error: " ++ data.error.getD "")
      else
        let st2 := addAIMessage st1 data.message
        let st3 :=
          if action = "next" then
            updateLessonProgress { st2 with currentLessonIndex := st2.currentLessonIndex + 1 }
          else st2
        if boolTruthy data.is_finished then
          showToast { st3 with controlsVisible := false } "Lesson plan completed! 🎉"
        else st3
    | .failure =>
      addSystemMessage (hideTypingIndicator st) "Failed to process request. Please try again."
  { stDone with inputDisabled := false, sendDisabled := false
              , nextDisabled := false, replayDisabled := false }

/-- `sendControlMessage(action)` for `action` in `{'next', 'replay'}`. -/
def sendControlMessage (st : UIState) (action : String) (result : FetchResult) : UIState :=
  controlResolve (controlBegin st action) action result

/-- The view `loadSession` uses when replaying one history entry: user
messages get the user bubble, every other sender gets the AI bubble. -/
def historyView (msg : HistoryMsg) : Entry :=
  if msg.sender = "user" then Entry.userMsg msg.message else Entry.aiMsg msg.message

def renderHistoryMsg (st : UIState) (msg : HistoryMsg) : UIState :=
  { st with transcript := st.transcript ++ [historyView msg] }

/-- `loadSession()`: on a body with a non-empty `history`, remove the
welcome placeholder, replay every entry in order, clear the first-message
flag and reveal the lesson controls; otherwise (empty or absent history, or
a fetch/parse failure) do nothing. -/
def loadSession (st : UIState) (res : SessionResult) : UIState :=
  match res with
  | .ok (some history) =>
    if history.length > 0 then
      let st1 := { st with welcome := false }
      let st2 := history.foldl renderHistoryMsg st1
      { st2 with isFirstMessage := false, controlsVisible := true }
    else st
  | .ok none => st
  | .failure => st

/-! ### User-event step relation -/

/-- A user-visible event together with the outcome of the request it
triggers. -/
inductive Event where
  | submit (inputValue : String) (result : FetchResult)
  | clickNext (result : FetchResult)
  | clickReplay (result : FetchResult)
  | load (res : SessionResult)
deriving DecidableEq

/-- One user event.  A submit can only originate from an enabled input, and
the `next` / `replay` buttons can only be clicked while the lesson controls
are displayed and the button is enabled; otherwise the event is a no-op. -/
def step (st : UIState) (e : Event) : UIState :=
  match e with
  | .submit v r => if st.inputDisabled || st.sendDisabled then st else submitUserMessage st v r
  | .clickNext r =>
    if st.controlsVisible && !st.nextDisabled then sendControlMessage st "next" r else st
  | .clickReplay r =>
    if st.controlsVisible && !st.replayDisabled then sendControlMessage st "replay" r else st
  | .load res => loadSession st res

/-- The state after a sequence of user events starting at page load. -/
def run (es : List Event) : UIState := es.foldl step initState

/-- What the transcript gains when a submit request settles. -/
def submitOutcomeEntry : FetchResult → Entry
  | .ok d =>
    if strTruthy d.error then Entry.sysMsg ("Error: " ++ d.error.getD "")
    else Entry.aiMsg d.message
  | .failure => Entry.sysMsg "Failed to send message. Please try again."

/-- What the transcript gains when a control request settles. -/
def controlOutcomeEntry : FetchResult → Entry
  | .ok d =>
    if strTruthy d.error then Entry.sysMsg ("Error: " ++ d.error.getD "")
    else Entry.aiMsg d.message
  | .failure => Entry.sysMsg "Failed to process request. Please try again."

/-- Whether a settled control request advances the lesson index. -/
def controlAdvances (a : String) : FetchResult → Bool
  | .ok d => a == "next" && !strTruthy d.error
  | .failure => false

/-- The lesson plan stored after a submit request settles, as a function of
the response. -/
def planAfter (st : UIState) : FetchResult → List String
  | .ok d =>
    if strTruthy d.error then st.currentLessonPlan
    else
      match d.lesson_plan with
      | some lp => if lp.length > 0 then lp else st.currentLessonPlan
      | none => st.currentLessonPlan
  | .failure => st.currentLessonPlan

/-! ### Concrete data used by counterexamples and witnesses -/

/-- A first response carrying a two-lesson plan. -/
def respAB : ChatResponse :=
  { message := "m", lesson_plan := some ["A", "B"], is_finished := none, error := none }

/-- A plain successful response: no plan, not finished, no error. -/
def respPlain : ChatResponse :=
  { message := "m2", lesson_plan := none, is_finished := none, error := none }

/-- A response whose `error` field is present but holds the empty string. -/
def emptyErrResp : ChatResponse :=
  { message := "m", lesson_plan := none, is_finished := none, error := some "" }

/-- A response carrying a non-empty application-level error. -/
def errResp : ChatResponse :=
  { message := "x", lesson_plan := none, is_finished := none, error := some "boom" }

/-- A successful response flagged `is_finished: true`. -/
def finResp : ChatResponse :=
  { message := "done", lesson_plan := none, is_finished := some true, error := none }

/-- A first response carrying a three-lesson plan. -/
def respABC : ChatResponse :=
  { message := "m", lesson_plan := some ["A", "B", "C"], is_finished := none, error := none }

/-- A successful control-action response that carries a non-empty plan. -/
def ctrlPlanResp : ChatResponse :=
  { message := "m2", lesson_plan := some ["X"], is_finished := none, error := none }

/-- Submit once to obtain the plan, then click `next` twice, each time with
a plain successful acknowledgement from the server. -/
def overAdvanceTrace : List Event :=
  [Event.submit "hi" (FetchResult.ok respAB),
   Event.clickNext (FetchResult.ok respPlain),
   Event.clickNext (FetchResult.ok respPlain)]

/-- The state after the first exchange stores the plan `[A, B, C]`. -/
def afterPlanABC : UIState := submitUserMessage initState "hi" (FetchResult.ok respABC)

/-! ### Helper lemmas: field preservation -/

@[simp] theorem updateLessonProgress_transcript (st : UIState) :
    (updateLessonProgress st).transcript = st.transcript := by
  unfold updateLessonProgress; split <;> rfl

@[simp] theorem updateLessonProgress_welcome (st : UIState) :
    (updateLessonProgress st).welcome = st.welcome := by
  unfold updateLessonProgress; split <;> rfl

@[simp] theorem updateLessonProgress_currentLessonIndex (st : UIState) :
    (updateLessonProgress st).currentLessonIndex = st.currentLessonIndex := by
  unfold updateLessonProgress; split <;> rfl

@[simp] theorem updateLessonProgress_currentLessonPlan (st : UIState) :
    (updateLessonProgress st).currentLessonPlan = st.currentLessonPlan := by
  unfold updateLessonProgress; split <;> rfl

@[simp] theorem updateLessonProgress_isFirstMessage (st : UIState) :
    (updateLessonProgress st).isFirstMessage = st.isFirstMessage := by
  unfold updateLessonProgress; split <;> rfl

@[simp] theorem updateLessonProgress_controlsVisible (st : UIState) :
    (updateLessonProgress st).controlsVisible = st.controlsVisible := by
  unfold updateLessonProgress; split <;> rfl

@[simp] theorem updateLessonProgress_toasts (st : UIState) :
    (updateLessonProgress st).toasts = st.toasts := by
  unfold updateLessonProgress; split <;> rfl

@[simp] theorem updateLessonProgress_requests (st : UIState) :
    (updateLessonProgress st).requests = st.requests := by
  unfold updateLessonProgress; split <;> rfl

@[simp] theorem updateLessonProgress_typingVisible (st : UIState) :
    (updateLessonProgress st).typingVisible = st.typingVisible := by
  unfold updateLessonProgress; split <;> rfl

theorem submitResolve_transcript (st : UIState) (r : FetchResult) :
    (submitResolve st r).transcript = st.transcript ++ [submitOutcomeEntry r] := by
  cases r with
  | ok d =>
    unfold submitResolve submitOutcomeEntry
    dsimp only
    repeat' split
    all_goals
      simp_all [addAIMessage, addSystemMessage, updateLessonPlan, hideTypingIndicator, showToast]
  | failure => rfl

theorem controlResolve_transcript (st : UIState) (a : String) (r : FetchResult) :
    (controlResolve st a r).transcript = st.transcript ++ [controlOutcomeEntry r] := by
  cases r with
  | ok d =>
    unfold controlResolve controlOutcomeEntry
    dsimp only
    repeat' split
    all_goals
      simp_all [addAIMessage, addSystemMessage, updateLessonPlan, hideTypingIndicator, showToast]
  | failure => rfl

theorem submitResolve_currentLessonIndex (st : UIState) (r : FetchResult) :
    (submitResolve st r).currentLessonIndex = st.currentLessonIndex := by
  cases r with
  | ok d =>
    unfold submitResolve
    dsimp only
    repeat' split
    all_goals
      simp_all [addAIMessage, addSystemMessage, updateLessonPlan, hideTypingIndicator, showToast]
  | failure => rfl

theorem submitResolve_typingVisible (st : UIState) (r : FetchResult) :
    (submitResolve st r).typingVisible = false := by
  cases r with
  | ok d =>
    unfold submitResolve
    dsimp only
    repeat' split
    all_goals
      simp_all [addAIMessage, addSystemMessage, updateLessonPlan, hideTypingIndicator, showToast]
  | failure => rfl

theorem controlResolve_typingVisible (st : UIState) (a : String) (r : FetchResult) :
    (controlResolve st a r).typingVisible = false := by
  cases r with
  | ok d =>
    unfold controlResolve
    dsimp only
    repeat' split
    all_goals
      simp_all [addAIMessage, addSystemMessage, updateLessonPlan, hideTypingIndicator, showToast]
  | failure => rfl

theorem controlResolve_currentLessonIndex (st : UIState) (a : String) (r : FetchResult) :
    (controlResolve st a r).currentLessonIndex =
      if controlAdvances a r then st.currentLessonIndex + 1 else st.currentLessonIndex := by
  cases r with
  | ok d =>
    unfold controlResolve controlAdvances
    dsimp only
    repeat' split
    all_goals
      simp_all [addAIMessage, addSystemMessage, updateLessonPlan, hideTypingIndicator, showToast]
  | failure => rfl

theorem controlResolve_currentLessonPlan (st : UIState) (a : String) (r : FetchResult) :
    (controlResolve st a r).currentLessonPlan = st.currentLessonPlan := by
  cases r with
  | ok d =>
    unfold controlResolve
    dsimp only
    repeat' split
    all_goals
      simp_all [addAIMessage, addSystemMessage, updateLessonPlan, hideTypingIndicator, showToast]
  | failure => rfl

theorem controlResolve_isFirstMessage (st : UIState) (a : String) (r : FetchResult) :
    (controlResolve st a r).isFirstMessage = st.isFirstMessage := by
  cases r with
  | ok d =>
    unfold controlResolve
    dsimp only
    repeat' split
    all_goals
      simp_all [addAIMessage, addSystemMessage, updateLessonPlan, hideTypingIndicator, showToast]
  | failure => rfl

theorem controlResolve_welcome (st : UIState) (a : String) (r : FetchResult) :
    (controlResolve st a r).welcome = st.welcome := by
  cases r with
  | ok d =>
    unfold controlResolve
    dsimp only
    repeat' split
    all_goals
      simp_all [addAIMessage, addSystemMessage, updateLessonPlan, hideTypingIndicator, showToast]
  | failure => rfl

theorem submitResolve_currentLessonPlan (st : UIState) (r : FetchResult) :
    (submitResolve st r).currentLessonPlan = planAfter st r := by
  cases r with
  | ok d =>
    unfold submitResolve planAfter
    dsimp only
    repeat' split
    all_goals
      simp_all [addAIMessage, addSystemMessage, updateLessonPlan, hideTypingIndicator, showToast]
  | failure => rfl

theorem submitResolve_welcome (st : UIState) (r : FetchResult) :
    (submitResolve st r).welcome = st.welcome := by
  cases r with
  | ok d =>
    unfold submitResolve
    dsimp only
    repeat' split
    all_goals
      simp_all [addAIMessage, addSystemMessage, updateLessonPlan, hideTypingIndicator, showToast]
  | failure => rfl

theorem foldl_renderHistoryMsg (hist : List HistoryMsg) (st : UIState) :
    hist.foldl renderHistoryMsg st =
      { st with transcript := st.transcript ++ hist.map historyView } := by
  induction hist generalizing st with
  | nil => simp
  | cons m ms ih => simp [renderHistoryMsg, ih]

theorem loadSession_currentLessonIndex (st : UIState) (res : SessionResult) :
    (loadSession st res).currentLessonIndex = st.currentLessonIndex := by
  cases res with
  | ok h =>
    cases h with
    | some hist =>
      unfold loadSession
      dsimp only
      split
      · simp [foldl_renderHistoryMsg]
      · rfl
    | none => rfl
  | failure => rfl

theorem submitResolve_requests (st : UIState) (r : FetchResult) :
    (submitResolve st r).requests = st.requests := by
  cases r with
  | ok d =>
    unfold submitResolve
    dsimp only
    repeat' split
    all_goals
      simp_all [addAIMessage, addSystemMessage, updateLessonPlan, hideTypingIndicator, showToast]
  | failure => rfl

theorem submitResolve_error (st : UIState) (d : ChatResponse)
    (h : strTruthy d.error = true) :
    submitResolve st (FetchResult.ok d) =
      { st with typingVisible := false
              , transcript := st.transcript ++ [Entry.sysMsg ("Error: " ++ d.error.getD "")]
              , inputDisabled := false, sendDisabled := false } := by
  unfold submitResolve
  simp [h, addSystemMessage, hideTypingIndicator]

theorem controlResolve_error (st : UIState) (a : String) (d : ChatResponse)
    (h : strTruthy d.error = true) :
    controlResolve st a (FetchResult.ok d) =
      { st with typingVisible := false
              , transcript := st.transcript ++ [Entry.sysMsg ("Error: " ++ d.error.getD "")]
              , inputDisabled := false, sendDisabled := false
              , nextDisabled := false, replayDisabled := false } := by
  unfold controlResolve
  simp [h, addSystemMessage, hideTypingIndicator]

theorem submitResolve_finished (st : UIState) (d : ChatResponse)
    (he : strTruthy d.error = false) (hf : boolTruthy d.is_finished = true) :
    (submitResolve st (FetchResult.ok d)).controlsVisible = false ∧
    (submitResolve st (FetchResult.ok d)).toasts = st.toasts ++ ["Lesson plan completed! 🎉"] := by
  unfold submitResolve
  dsimp only
  repeat' split
  all_goals
    simp_all [addAIMessage, addSystemMessage, updateLessonPlan, hideTypingIndicator, showToast]

theorem submitResolve_first_reveal (st : UIState) (d : ChatResponse)
    (he : strTruthy d.error = false) (hf : boolTruthy d.is_finished = false)
    (hm : st.isFirstMessage = true) :
    (submitResolve st (FetchResult.ok d)).controlsVisible = true ∧
    (submitResolve st (FetchResult.ok d)).isFirstMessage = false ∧
    (submitResolve st (FetchResult.ok d)).toasts = st.toasts := by
  unfold submitResolve
  dsimp only
  repeat' split
  all_goals
    simp_all [addAIMessage, addSystemMessage, updateLessonPlan, hideTypingIndicator, showToast]

theorem controlResolve_finished (st : UIState) (a : String) (d : ChatResponse)
    (he : strTruthy d.error = false) (hf : boolTruthy d.is_finished = true) :
    (controlResolve st a (FetchResult.ok d)).controlsVisible = false ∧
    (controlResolve st a (FetchResult.ok d)).toasts = st.toasts ++ ["Lesson plan completed! 🎉"] := by
  unfold controlResolve
  dsimp only
  repeat' split
  all_goals
    simp_all [addAIMessage, addSystemMessage, updateLessonPlan, hideTypingIndicator, showToast]

theorem submitResolve_isFirstMessage_error (st : UIState) (d : ChatResponse)
    (h : strTruthy d.error = true) :
    (submitResolve st (FetchResult.ok d)).isFirstMessage = st.isFirstMessage := by
  rw [submitResolve_error st d h]

theorem escapeChar_no_angle (c : Char) :
    '<' ∉ (escapeChar c).data ∧ '>' ∉ (escapeChar c).data := by
  unfold escapeChar
  repeat' split
  all_goals simp_all [String.singleton]
  all_goals
    constructor <;> intro hc <;> exact absurd hc.symm (by assumption)

theorem escapeHtmlAux_no_angle (cs : List Char) :
    '<' ∉ escapeHtmlAux cs ∧ '>' ∉ escapeHtmlAux cs := by
  induction cs with
  | nil => simp [escapeHtmlAux]
  | cons c cs ih =>
    have hc := escapeChar_no_angle c
    simp only [escapeHtmlAux, List.mem_append]
    constructor
    · intro h
      rcases h with h | h
      · exact hc.1 h
      · exact ih.1 h
    · intro h
      rcases h with h | h
      · exact hc.2 h
      · exact ih.2 h

/-! ### Claims -/

/-- C1 (counterexample): the claimed invariant
`currentLessonIndex < lessonPlan.length` fails on the code.  Starting from
page load, one submit that stores the two-lesson plan followed by two
successful `next` control actions — every click made while the controls are
displayed and enabled, every response error-free — leaves
`currentLessonIndex = 2 = lessonPlan.length`: repeated successful advances
do drive the index past the end of the plan. -/
theorem currentLessonIndex_bound_cex :
    (run overAdvanceTrace).currentLessonPlan ≠ [] ∧
    ¬ ((run overAdvanceTrace).currentLessonIndex <
        (run overAdvanceTrace).currentLessonPlan.length) := by
  decide

/-- C1 (amended): `currentLessonIndex` is never decremented by any user
event, is left unchanged by submits, replays, load and failed or rejected
`next` actions, and is incremented exactly by a successful (error-free)
`next` control action — but it is not bounded by the plan length. -/
theorem currentLessonIndex_monotone_next_only :
    (∀ st e, st.currentLessonIndex ≤ (step st e).currentLessonIndex) ∧
    (∀ st v r, (submitUserMessage st v r).currentLessonIndex = st.currentLessonIndex) ∧
    (∀ st r, (sendControlMessage st "replay" r).currentLessonIndex = st.currentLessonIndex) ∧
    (∀ st res, (loadSession st res).currentLessonIndex = st.currentLessonIndex) ∧
    (∀ st d, (sendControlMessage st "next" (FetchResult.ok d)).currentLessonIndex =
      (if strTruthy d.error then st.currentLessonIndex else st.currentLessonIndex + 1)) ∧
    (∀ st, (sendControlMessage st "next" FetchResult.failure).currentLessonIndex =
      st.currentLessonIndex) := by
  have hsub : ∀ st v r, (submitUserMessage st v r).currentLessonIndex = st.currentLessonIndex := by
    intro st v r
    unfold submitUserMessage
    dsimp only
    split
    · rfl
    · rw [submitResolve_currentLessonIndex]
      rfl
  have hctl : ∀ st a r, (sendControlMessage st a r).currentLessonIndex =
      if controlAdvances a r then st.currentLessonIndex + 1 else st.currentLessonIndex := by
    intro st a r
    unfold sendControlMessage
    rw [controlResolve_currentLessonIndex]
    rfl
  have hload := loadSession_currentLessonIndex
  refine ⟨?_, hsub, ?_, hload, ?_, ?_⟩
  · intro st e
    cases e with
    | submit v r =>
      dsimp only [step]
      split
      · exact le_refl _
      · rw [hsub]
    | clickNext r =>
      dsimp only [step]
      split
      · rw [hctl]; split <;> omega
      · exact le_refl _
    | clickReplay r =>
      dsimp only [step]
      split
      · rw [hctl]; split <;> omega
      · exact le_refl _
    | load res => rw [step, hload]
  · intro st r
    rw [hctl]
    have hra : controlAdvances "replay" r = false := by
      cases r <;> simp [controlAdvances]
    rw [hra]
    rfl
  · intro st d
    rw [hctl]
    have hna : controlAdvances "next" (FetchResult.ok d) = !strTruthy d.error := by
      simp [controlAdvances]
    rw [hna]
    cases hx : strTruthy d.error <;> simp [hx]
  · intro st
    rw [hctl]
    rfl

/-- C2 (counterexample): a response whose `error` field is present but holds
the empty string is routed to the success branch, so the second appended
Message is an AI Message, not the system Message the claim requires for
every response with an `error` field present. -/
theorem submit_empty_error_field_cex :
    emptyErrResp.error.isSome = true ∧
    (submitUserMessage initState "hi" (FetchResult.ok emptyErrResp)).transcript =
      [Entry.userMsg "hi", Entry.aiMsg "m"] := by
  decide

/-- C2 (amended): an empty trimmed submission changes nothing and issues no
request; a non-empty one appends exactly one user Message and logs exactly
one request before the response is handled, and handling the response
appends exactly one further Message — an AI Message on success with `error`
absent or empty, a system Message on a non-empty `error` or on
transport/parse failure; the optimistic user Message is never removed. -/
theorem submitUserMessage_message_discipline :
    (∀ st v r, jsTrim v = "" → submitUserMessage st v r = st) ∧
    (∀ st v r, jsTrim v ≠ "" →
      (submitBegin st (jsTrim v)).transcript = st.transcript ++ [Entry.userMsg (jsTrim v)] ∧
      (submitBegin st (jsTrim v)).requests = st.requests ++ [jsTrim v] ∧
      submitUserMessage st v r = submitResolve (submitBegin st (jsTrim v)) r ∧
      (submitUserMessage st v r).transcript =
        st.transcript ++ [Entry.userMsg (jsTrim v), submitOutcomeEntry r] ∧
      (submitUserMessage st v r).requests = st.requests ++ [jsTrim v]) := by
  constructor
  · intro st v r h
    unfold submitUserMessage
    dsimp only
    rw [if_pos h]
  · intro st v r h
    have he : submitUserMessage st v r = submitResolve (submitBegin st (jsTrim v)) r := by
      unfold submitUserMessage
      dsimp only
      rw [if_neg h]
    refine ⟨by rfl, by rfl, he, ?_, ?_⟩
    · rw [he, submitResolve_transcript]
      simp [submitBegin, addUserMessage, showTypingIndicator]
    · rw [he, submitResolve_requests]
      rfl

/-- C2 witness: the discipline applied at the whitespace-only input `"   "`
and at the valid input `" hi "` with a transport failure. -/
theorem submitUserMessage_message_discipline_witness :
    submitUserMessage initState "   " FetchResult.failure = initState ∧
    (submitUserMessage initState " hi " FetchResult.failure).transcript =
      [Entry.userMsg "hi", Entry.sysMsg "Failed to send message. Please try again."] := by
  constructor
  · exact submitUserMessage_message_discipline.1 initState "   " FetchResult.failure (by decide)
  · have h :=
      (submitUserMessage_message_discipline.2 initState " hi " FetchResult.failure
        (by decide)).2.2.2.1
    rw [h]
    decide

/-- C3: after every completed action the controls disabled at its start are
re-enabled — input and send for a (non-empty) submit, all four for a
control action — and the typing indicator is hidden, whatever the
outcome of the request. -/
theorem controls_reenabled :
    (∀ st v r, jsTrim v ≠ "" →
      (submitUserMessage st v r).inputDisabled = false ∧
      (submitUserMessage st v r).sendDisabled = false ∧
      (submitUserMessage st v r).typingVisible = false) ∧
    (∀ st a r,
      (sendControlMessage st a r).inputDisabled = false ∧
      (sendControlMessage st a r).sendDisabled = false ∧
      (sendControlMessage st a r).nextDisabled = false ∧
      (sendControlMessage st a r).replayDisabled = false ∧
      (sendControlMessage st a r).typingVisible = false) := by
  constructor
  · intro st v r h
    have he : submitUserMessage st v r = submitResolve (submitBegin st (jsTrim v)) r := by
      unfold submitUserMessage
      dsimp only
      rw [if_neg h]
    rw [he]
    exact ⟨rfl, rfl, submitResolve_typingVisible _ _⟩
  · intro st a r
    exact ⟨rfl, rfl, rfl, rfl, controlResolve_typingVisible _ _ _⟩

/-- C3 witness: re-enablement observed at a concrete failed submit and a
concrete failed control action. -/
theorem controls_reenabled_witness :
    (submitUserMessage initState "hi" FetchResult.failure).inputDisabled = false ∧
    (sendControlMessage initState "next" FetchResult.failure).typingVisible = false := by
  exact ⟨(controls_reenabled.1 initState "hi" FetchResult.failure (by decide)).1,
         (controls_reenabled.2 initState "next" FetchResult.failure).2.2.2.2⟩

/-- C4 (counterexample): a control response whose `error` field is present
but empty is not surfaced as a system Message — an AI Message is appended
instead — and session state is mutated: a `next` action with such a
response still increments `currentLessonIndex`. -/
theorem control_empty_error_field_cex :
    emptyErrResp.error.isSome = true ∧
    (sendControlMessage initState "next" (FetchResult.ok emptyErrResp)).currentLessonIndex = 1 ∧
    initState.currentLessonIndex = 0 ∧
    (sendControlMessage initState "next" (FetchResult.ok emptyErrResp)).transcript =
      [Entry.aiMsg "m"] := by
  decide

/-- C4 (amended): for every successfully received response whose `error`
field is present and non-empty, the error text is surfaced unaltered inside
a system Message prefixed with the label `Error: `, and the action mutates
none of `currentLessonPlan`, `currentLessonIndex`, `isFirstMessage`. -/
theorem error_response_discipline :
    (∀ st v d e, jsTrim v ≠ "" → d.error = some e → e ≠ "" →
      (submitUserMessage st v (FetchResult.ok d)).transcript =
        st.transcript ++ [Entry.userMsg (jsTrim v), Entry.sysMsg ("Error: " ++ e)] ∧
      (submitUserMessage st v (FetchResult.ok d)).currentLessonPlan = st.currentLessonPlan ∧
      (submitUserMessage st v (FetchResult.ok d)).currentLessonIndex = st.currentLessonIndex ∧
      (submitUserMessage st v (FetchResult.ok d)).isFirstMessage = st.isFirstMessage) ∧
    (∀ st a d e, d.error = some e → e ≠ "" →
      (sendControlMessage st a (FetchResult.ok d)).transcript =
        st.transcript ++ [Entry.sysMsg ("Error: " ++ e)] ∧
      (sendControlMessage st a (FetchResult.ok d)).currentLessonPlan = st.currentLessonPlan ∧
      (sendControlMessage st a (FetchResult.ok d)).currentLessonIndex = st.currentLessonIndex ∧
      (sendControlMessage st a (FetchResult.ok d)).isFirstMessage = st.isFirstMessage) := by
  constructor
  · intro st v d e hv hd hne
    have ht : strTruthy d.error = true := by simp [strTruthy, hd, hne]
    have he : submitUserMessage st v (FetchResult.ok d) =
        submitResolve (submitBegin st (jsTrim v)) (FetchResult.ok d) := by
      unfold submitUserMessage
      dsimp only
      rw [if_neg hv]
    rw [he, submitResolve_error _ _ ht]
    refine ⟨?_, by rfl, by rfl, by rfl⟩
    simp [submitBegin, addUserMessage, showTypingIndicator, hd]
  · intro st a d e hd hne
    have ht : strTruthy d.error = true := by simp [strTruthy, hd, hne]
    unfold sendControlMessage
    rw [controlResolve_error _ _ _ ht]
    refine ⟨?_, by rfl, by rfl, by rfl⟩
    simp [controlBegin, showTypingIndicator, hd]

/-- C4 witness: the amended discipline applied to a `next` action answered
with the error text `boom`. -/
theorem error_response_discipline_witness :
    (sendControlMessage initState "next" (FetchResult.ok errResp)).transcript =
      [Entry.sysMsg "Error: boom"] ∧
    (sendControlMessage initState "next" (FetchResult.ok errResp)).currentLessonIndex = 0 := by
  have h := error_response_discipline.2 initState "next" errResp "boom" rfl (by decide)
  constructor
  · rw [h.1]; decide
  · rw [h.2.2.1]; rfl

/-- C5: a transport or parse failure appends exactly one system Message
carrying the generic (non-verbatim) failure text for that action, and
leaves `currentLessonPlan` and `currentLessonIndex` unchanged. -/
theorem transport_failure_atomicity :
    (∀ st v, jsTrim v ≠ "" →
      (submitUserMessage st v FetchResult.failure).transcript =
        st.transcript ++ [Entry.userMsg (jsTrim v),
          Entry.sysMsg "Failed to send message. Please try again."] ∧
      (submitUserMessage st v FetchResult.failure).currentLessonPlan = st.currentLessonPlan ∧
      (submitUserMessage st v FetchResult.failure).currentLessonIndex = st.currentLessonIndex) ∧
    (∀ st a,
      (sendControlMessage st a FetchResult.failure).transcript =
        st.transcript ++ [Entry.sysMsg "Failed to process request. Please try again."] ∧
      (sendControlMessage st a FetchResult.failure).currentLessonPlan = st.currentLessonPlan ∧
      (sendControlMessage st a FetchResult.failure).currentLessonIndex = st.currentLessonIndex) := by
  constructor
  · intro st v hv
    have he : submitUserMessage st v FetchResult.failure =
        submitResolve (submitBegin st (jsTrim v)) FetchResult.failure := by
      unfold submitUserMessage
      dsimp only
      rw [if_neg hv]
    rw [he]
    refine ⟨?_, ?_, ?_⟩
    · rw [submitResolve_transcript]
      simp [submitBegin, addUserMessage, showTypingIndicator, submitOutcomeEntry]
    · rw [submitResolve_currentLessonPlan]
      rfl
    · rw [submitResolve_currentLessonIndex]
      rfl
  · intro st a
    unfold sendControlMessage
    refine ⟨?_, ?_, ?_⟩
    · rw [controlResolve_transcript]
      rfl
    · rw [controlResolve_currentLessonPlan]
      rfl
    · rw [controlResolve_currentLessonIndex]
      rfl

/-- C5 witness: the atomicity facts at a concrete failed submit and a
concrete failed replay. -/
theorem transport_failure_atomicity_witness :
    (submitUserMessage initState "hi" FetchResult.failure).currentLessonPlan = [] ∧
    (sendControlMessage initState "replay" FetchResult.failure).transcript =
      [Entry.sysMsg "Failed to process request. Please try again."] := by
  constructor
  · have h := (transport_failure_atomicity.1 initState "hi" (by decide)).2.1
    rw [h]
    rfl
  · have h := (transport_failure_atomicity.2 initState "replay").1
    rw [h]
    decide

/-- C7 (counterexample): a control-action response carrying the non-empty
plan `[X]` does not replace the stored plan — `sendControlMessage` never
reads `lesson_plan`, so the stored plan stays `[A, B, C]`. -/
theorem control_plan_ignored_cex :
    ctrlPlanResp.lesson_plan = some ["X"] ∧
    afterPlanABC.currentLessonPlan = ["A", "B", "C"] ∧
    (sendControlMessage afterPlanABC "replay" (FetchResult.ok ctrlPlanResp)).currentLessonPlan =
      ["A", "B", "C"] := by
  decide

/-- C7 (amended): on the plan `[A, B, C]` the sidebar renders exactly three
items in order with item 0 active and none completed; after one successful
`next` the index is 1 and item 0 is completed, item 1 active, item 2
neither; a non-empty `lesson_plan` in a successful free-text
(`submitUserMessage`) response replaces the stored plan wholesale, while
control-action responses never change the stored plan. -/
theorem lesson_sidebar_rendering :
    (afterPlanABC.currentLessonIndex = 0 ∧
     afterPlanABC.sidebar =
       [{ title := "A", number := "1", active := true, completed := false },
        { title := "B", number := "2", active := false, completed := false },
        { title := "C", number := "3", active := false, completed := false }]) ∧
    ((sendControlMessage afterPlanABC "next" (FetchResult.ok respPlain)).currentLessonIndex = 1 ∧
     (sendControlMessage afterPlanABC "next" (FetchResult.ok respPlain)).sidebar =
       [{ title := "A", number := "1", active := false, completed := true },
        { title := "B", number := "2", active := true, completed := false },
        { title := "C", number := "3", active := false, completed := false }]) ∧
    (∀ st v d lp, jsTrim v ≠ "" → strTruthy d.error = false → d.lesson_plan = some lp →
      lp ≠ [] →
      (submitUserMessage st v (FetchResult.ok d)).currentLessonPlan = lp) ∧
    (∀ st a r, (sendControlMessage st a r).currentLessonPlan = st.currentLessonPlan) := by
  refine ⟨by decide, by decide, ?_, ?_⟩
  · intro st v d lp hv he hp hlp
    have heq : submitUserMessage st v (FetchResult.ok d) =
        submitResolve (submitBegin st (jsTrim v)) (FetchResult.ok d) := by
      unfold submitUserMessage
      dsimp only
      rw [if_neg hv]
    rw [heq, submitResolve_currentLessonPlan]
    simp [planAfter, he, hp, List.length_pos.mpr hlp]
  · intro st a r
    unfold sendControlMessage
    rw [controlResolve_currentLessonPlan]
    rfl

/-- C7 witness: the plan-replacement facts at a concrete first submit and a
concrete failed replay. -/
theorem lesson_sidebar_rendering_witness :
    (submitUserMessage initState "hi" (FetchResult.ok respABC)).currentLessonPlan =
      ["A", "B", "C"] ∧
    (sendControlMessage initState "replay" FetchResult.failure).currentLessonPlan = [] := by
  constructor
  · exact lesson_sidebar_rendering.2.2.1 initState "hi" respABC ["A", "B", "C"]
      (by decide) (by decide) rfl (by decide)
  · rw [lesson_sidebar_rendering.2.2.2 initState "replay" FetchResult.failure]
    rfl

/-- C6: AI message text is rendered by the fixed pipeline: HTML-escape,
then non-greedy `**bold**`, then non-greedy `*italic*`, then newlines;
`<script>` input survives only as escaped literal text (escaping never
emits an angle bracket), the markdown round-trip `**bold** and *em*`
renders with the tags applied and no asterisk remaining, and user text,
system text and lesson titles are escaped with no markup pass. -/
theorem formatMessage_rendering :
    (∀ t, formatMessage t = replaceNewlines (replaceItalic (replaceBold (escapeHtml t)))) ∧
    formatMessage "<script>alert(1)</script>" = "&lt;script&gt;alert(1)&lt;/script&gt;" ∧
    formatMessage "**bold** and *em*" = "<strong>bold</strong> and <em>em</em>" ∧
    '*' ∉ (formatMessage "**bold** and *em*").data ∧
    (∀ t, '<' ∉ (escapeHtml t).data ∧ '>' ∉ (escapeHtml t).data) ∧
    (∀ t, Entry.bubbleHtml (Entry.userMsg t) = escapeHtml t) ∧
    (∀ t, Entry.bubbleHtml (Entry.sysMsg t) = escapeHtml t) ∧
    (∀ t, Entry.bubbleHtml (Entry.aiMsg t) = formatMessage t) ∧
    (∀ idx i l, (renderLessonItem idx i l).title = escapeHtml l) := by
  refine ⟨fun t => rfl, by decide, by decide, by decide, ?_, fun t => rfl, fun t => rfl,
    fun t => rfl, fun idx i l => rfl⟩
  intro t
  exact escapeHtmlAux_no_angle t.data

/-- C8: a successful response flagged `is_finished: true` hides the lesson
controls and emits exactly one completion toast, for both submits and
control actions; a successful, unfinished submit response made while the
first-message flag is set reveals the controls, clears the flag, and emits
no toast. -/
theorem completion_and_reveal :
    (∀ st v d, jsTrim v ≠ "" → strTruthy d.error = false → boolTruthy d.is_finished = true →
      (submitUserMessage st v (FetchResult.ok d)).controlsVisible = false ∧
      (submitUserMessage st v (FetchResult.ok d)).toasts =
        st.toasts ++ ["Lesson plan completed! 🎉"]) ∧
    (∀ st a d, strTruthy d.error = false → boolTruthy d.is_finished = true →
      (sendControlMessage st a (FetchResult.ok d)).controlsVisible = false ∧
      (sendControlMessage st a (FetchResult.ok d)).toasts =
        st.toasts ++ ["Lesson plan completed! 🎉"]) ∧
    (∀ st v d, jsTrim v ≠ "" → strTruthy d.error = false → boolTruthy d.is_finished = false →
      st.isFirstMessage = true →
      (submitUserMessage st v (FetchResult.ok d)).controlsVisible = true ∧
      (submitUserMessage st v (FetchResult.ok d)).isFirstMessage = false ∧
      (submitUserMessage st v (FetchResult.ok d)).toasts = st.toasts) := by
  refine ⟨?_, ?_, ?_⟩
  · intro st v d hv he hf
    have heq : submitUserMessage st v (FetchResult.ok d) =
        submitResolve (submitBegin st (jsTrim v)) (FetchResult.ok d) := by
      unfold submitUserMessage
      dsimp only
      rw [if_neg hv]
    rw [heq]
    exact submitResolve_finished (submitBegin st (jsTrim v)) d he hf
  · intro st a d he hf
    exact controlResolve_finished (controlBegin st a) a d he hf
  · intro st v d hv he hf hm
    have heq : submitUserMessage st v (FetchResult.ok d) =
        submitResolve (submitBegin st (jsTrim v)) (FetchResult.ok d) := by
      unfold submitUserMessage
      dsimp only
      rw [if_neg hv]
    rw [heq]
    exact submitResolve_first_reveal (submitBegin st (jsTrim v)) d he hf hm

/-- C8 witness: completion observed on a finished control response, and the
first-exchange reveal observed on a plain first submit. -/
theorem completion_and_reveal_witness :
    (sendControlMessage initState "next" (FetchResult.ok finResp)).controlsVisible = false ∧
    (sendControlMessage initState "next" (FetchResult.ok finResp)).toasts =
      ["Lesson plan completed! 🎉"] ∧
    (submitUserMessage initState "hi" (FetchResult.ok respPlain)).controlsVisible = true ∧
    (submitUserMessage initState "hi" (FetchResult.ok respPlain)).isFirstMessage = false := by
  have h1 := completion_and_reveal.2.1 initState "next" finResp (by decide) (by decide)
  have h2 := completion_and_reveal.2.2 initState "hi" respPlain (by decide) (by decide)
    (by decide) (by decide)
  refine ⟨h1.1, ?_, h2.1, h2.2.1⟩
  rw [h1.2]
  decide

/-- C9: `loadSession` on a non-empty fetched history removes the welcome
placeholder, appends exactly the history entries in order — user senders as
user views, every other sender as the AI view — clears the first-message
flag and reveals the lesson controls; an empty or absent history and a
fetch failure each leave the state untouched, in particular the welcome
placeholder and the initially-true first-message flag. -/
theorem loadSession_replay :
    (∀ st hist, hist ≠ [] →
      loadSession st (SessionResult.ok (some hist)) =
        { st with welcome := false
                , transcript := st.transcript ++ hist.map historyView
                , isFirstMessage := false
                , controlsVisible := true }) ∧
    (∀ st, loadSession st (SessionResult.ok (some [])) = st) ∧
    (∀ st, loadSession st (SessionResult.ok none) = st) ∧
    (∀ st, loadSession st SessionResult.failure = st) ∧
    (∀ m, historyView m =
      if m.sender = "user" then Entry.userMsg m.message else Entry.aiMsg m.message) ∧
    initState.isFirstMessage = true ∧ initState.welcome = true := by
  refine ⟨?_, fun st => rfl, fun st => rfl, fun st => rfl, fun m => rfl, rfl, rfl⟩
  intro st hist h
  unfold loadSession
  dsimp only
  rw [if_pos (List.length_pos.mpr h), foldl_renderHistoryMsg]

/-- C9 witness: a two-message history replayed at page load. -/
theorem loadSession_replay_witness :
    loadSession initState
        (SessionResult.ok (some [{ sender := "user", message := "q" },
                                 { sender := "ai", message := "a" }])) =
      { initState with
          welcome := false
        , transcript := [Entry.userMsg "q", Entry.aiMsg "a"]
        , isFirstMessage := false
        , controlsVisible := true } := by
  have h := loadSession_replay.1 initState
    [{ sender := "user", message := "q" }, { sender := "ai", message := "a" }] (by decide)
  rw [h]
  decide

/-- C10: `addUserMessage` removes the welcome placeholder and appends its
single entry; `addAIMessage` and `addSystemMessage` append their single
entry and leave the placeholder (and every other field) alone; among the
handlers, only a non-empty submit (through `addUserMessage`) and a
non-empty history replay ever clear the placeholder. -/
theorem welcome_placeholder_discipline :
    (∀ st t, addUserMessage st t =
      { st with welcome := false, transcript := st.transcript ++ [Entry.userMsg t] }) ∧
    (∀ st t, addAIMessage st t = { st with transcript := st.transcript ++ [Entry.aiMsg t] }) ∧
    (∀ st t, addSystemMessage st t =
      { st with transcript := st.transcript ++ [Entry.sysMsg t] }) ∧
    (∀ st a r, (sendControlMessage st a r).welcome = st.welcome) ∧
    (∀ st v r, (submitUserMessage st v r).welcome =
      (if jsTrim v = "" then st.welcome else false)) ∧
    (∀ st hist, (loadSession st (SessionResult.ok (some hist))).welcome =
      (if hist.length > 0 then false else st.welcome)) ∧
    (∀ st, (loadSession st (SessionResult.ok none)).welcome = st.welcome) ∧
    (∀ st, (loadSession st SessionResult.failure).welcome = st.welcome) := by
  refine ⟨fun st t => rfl, fun st t => rfl, fun st t => rfl, ?_, ?_, ?_,
    fun st => rfl, fun st => rfl⟩
  · intro st a r
    unfold sendControlMessage
    rw [controlResolve_welcome]
    rfl
  · intro st v r
    unfold submitUserMessage
    dsimp only
    split
    · simp_all
    · rw [submitResolve_welcome]
      simp_all [submitBegin, addUserMessage, showTypingIndicator]
  · intro st hist
    unfold loadSession
    dsimp only
    split
    · simp_all [foldl_renderHistoryMsg]
    · simp_all

end Chat
